import Mathlib

/-!
Shallow embedding of `src/backend/scripts/hf_download.py`, a CLI adapter that
wraps the huggingface_hub library.  The external library (`hf_hub_download`,
`snapshot_download`, `hf_hub_url`) and the filesystem (`os.path.exists`,
`os.path.getsize`, `os.walk`, `os.path.islink`) are modelled as oracle
parameters; the adapter's own logic (argument normalisation, event emission,
error translation, aggregation over the downloaded tree) is translated
function by function from the source.
-/

namespace HfDownload

/-- A Python exception as the adapter observes it: `str(e)` and
`type(e).__name__`. -/
structure Exn where
  message : String
  name : String
deriving DecidableEq, Repr

/-- JSON values appearing in the adapter's event payloads. -/
inductive Json where
  | null : Json
  | bool : Bool → Json
  | num : Int → Json
  | rat : ℚ → Json
  | str : String → Json
deriving DecidableEq, Repr

/-- One line-delimited JSON event on stdout: `{"type": ..., "data": {...}}`. -/
structure Event where
  type : String
  data : List (String × Json)
deriving DecidableEq, Repr

/-- `send_progress(event_type, data)`: prints one JSON event.  Emission is
modelled as producing a one-element event list. -/
def send_progress (event_type : String) (data : List (String × Json)) : List Event :=
  [⟨event_type, data⟩]

/-- `send_error(message, code)`: one `"error"` event whose data carries the
message and the exception class name (`code`, JSON null when absent). -/
def send_error (message : String) (code : Option String) : List Event :=
  [⟨"error", [("message", Json.str message), ("code", (code.map Json.str).getD Json.null)]⟩]

/-- `send_complete(result)`: one `"complete"` event. -/
def send_complete (result : List (String × Json)) : List Event :=
  [⟨"complete", result⟩]

/-- Number of events of a given type in an emitted stream. -/
def countType (evs : List Event) (t : String) : Nat :=
  (evs.filter (fun e => e.type = t)).length

/-- The sub-stream of events of a given type, in emission order. -/
def eventsOfType (evs : List Event) (t : String) : List Event :=
  evs.filter (fun e => e.type = t)

/-- Python truthiness of an optional string (`if s:`): `None` and `""` are
falsy. -/
def pyTruthyStr : Option String → Bool
  | none => false
  | some s => s ≠ ""

/-- Python truthiness of an optional list (`if l:`): `None` and `[]` are
falsy. -/
def pyTruthyList : Option (List String) → Bool
  | none => false
  | some l => !l.isEmpty

/-- Python `a or b` on optional strings: `a` when truthy, else `b`. -/
def pyOrStr (a b : Option String) : Option String :=
  if pyTruthyStr a then a else b

/-- `str.split(",")` on the character list: splitting on every comma,
keeping empty segments, never returning an empty list. -/
def splitCommaChars : List Char → List (List Char)
  | [] => [[]]
  | c :: rest =>
      if c = ',' then [] :: splitCommaChars rest
      else
        match splitCommaChars rest with
        | [] => [[c]]
        | h :: t => (c :: h) :: t

/-- Python `s.split(",")`. -/
def pySplitComma (s : String) : List String :=
  (splitCommaChars s.toList).map (fun cs => String.mk cs)

/-- `args.allow_patterns.split(",") if args.allow_patterns else None`
(line 317 of the source; same for ignore patterns on line 318). -/
def splitPatterns : Option String → Option (List String)
  | none => none
  | some s => if s = "" then none else some (pySplitComma s)

/-! ## Filesystem model -/

mutual
/-- A directory tree as `os.walk` sees it: leaf files carry their byte size
and whether they are symbolic links; directories carry named entries. -/
inductive FSTree where
  | file (size : Nat) (isLink : Bool) : FSTree
  | dir (entries : FSList) : FSTree
deriving DecidableEq, Repr

inductive FSList where
  | nil : FSList
  | cons (name : String) (child : FSTree) (rest : FSList) : FSList
deriving DecidableEq, Repr
end

mutual
/-- The `(size, islink)` pairs of the files yielded by `os.walk` on a path,
in walk order: a directory yields its own files first, then recurses into
each subdirectory; walking a non-directory yields nothing. -/
def FSTree.walkFiles : FSTree → List (Nat × Bool)
  | .file _ _ => []
  | .dir es => FSList.ownFiles es ++ FSList.subWalks es

def FSList.ownFiles : FSList → List (Nat × Bool)
  | .nil => []
  | .cons _ c rest =>
      (match c with
       | .file sz l => [(sz, l)]
       | .dir _ => []) ++ FSList.ownFiles rest

def FSList.subWalks : FSList → List (Nat × Bool)
  | .nil => []
  | .cons _ c rest =>
      (match c with
       | .file _ _ => []
       | .dir es => FSTree.walkFiles (.dir es)) ++ FSList.subWalks rest
end

/-- The filesystem oracle.  Files enumerated by `os.walk` exist at the paths
the walk reports, so the per-file `os.path.exists` check inside the
aggregation loop is modelled as true; size and link status of walked files
come from the tree itself. -/
structure FileSystem where
  pathExists : String → Bool
  getsize : String → Nat
  tree : String → FSTree

/-- The aggregation loop of `download_snapshot` (source lines 201–210):
walk the snapshot path, and for each existing non-symlink file add its size
to `total_size` and bump `file_count`.  Returns `(total_size, file_count)`. -/
def snapshotAggregate (fsys : FileSystem) (snapshot_path : String) : Nat × Nat :=
  if fsys.pathExists snapshot_path then
    (FSTree.walkFiles (fsys.tree snapshot_path)).foldl
      (fun acc f => if f.2 = false then (acc.1 + f.1, acc.2 + 1) else acc) (0, 0)
  else (0, 0)

/-! ## External library oracle and kwargs -/

/-- The keyword arguments actually handed to `hf_hub_download`; a `none`
field models a key absent from the kwargs dict. -/
structure HfHubDownloadKwargs where
  repo_id : String
  filename : String
  revision : String
  token : Option String
  cache_dir : Option String
  local_dir : Option String
  local_dir_use_symlinks : Option Bool
deriving DecidableEq, Repr

/-- The keyword arguments actually handed to `snapshot_download`. -/
structure SnapshotDownloadKwargs where
  repo_id : String
  revision : String
  token : Option String
  cache_dir : Option String
  allow_patterns : Option (List String)
  ignore_patterns : Option (List String)
  local_dir : Option String
  local_dir_use_symlinks : Option Bool
deriving DecidableEq, Repr

/-- The external hub-client capability: each call either returns a value or
raises an exception. -/
structure HubLib where
  hf_hub_download : HfHubDownloadKwargs → Except Exn String
  snapshot_download : SnapshotDownloadKwargs → Except Exn String
  hf_hub_url : String → String → String → Except Exn String

/-- The kwargs dict built by `download_single_file` (source lines 118–131):
`repo_id`, `filename`, `revision` always present; `token`, `cache_dir`,
`local_dir` only when truthy; `local_dir_use_symlinks = False` accompanies
`local_dir`.  The function's `dest` parameter is never consulted here. -/
def single_file_kwargs (repo_id filename revision : String)
    (token cache_dir local_dir : Option String) : HfHubDownloadKwargs :=
  ⟨repo_id, filename, revision,
   if pyTruthyStr token then token else none,
   if pyTruthyStr cache_dir then cache_dir else none,
   if pyTruthyStr local_dir then local_dir else none,
   if pyTruthyStr local_dir then some false else none⟩

/-- The kwargs dict built by `download_snapshot` (source lines 181–196):
`allow_patterns` / `ignore_patterns` only when truthy (non-empty list);
a truthy `dest` becomes `local_dir` with `local_dir_use_symlinks = False`. -/
def snapshot_kwargs (repo_id revision : String) (token cache_dir : Option String)
    (allow_patterns ignore_patterns : Option (List String))
    (dest : Option String) : SnapshotDownloadKwargs :=
  ⟨repo_id, revision,
   if pyTruthyStr token then token else none,
   if pyTruthyStr cache_dir then cache_dir else none,
   if pyTruthyList allow_patterns then allow_patterns else none,
   if pyTruthyList ignore_patterns then ignore_patterns else none,
   if pyTruthyStr dest then dest else none,
   if pyTruthyStr dest then some false else none⟩

/-! ## Operations -/

/-- `download_single_file` (source lines 95–153).  Emits `"start"`, calls
`hf_hub_download`, then on success reads the file size and emits
`"complete"`; on exception emits `"error"` and re-raises (modelled by the
`Except.error` result).  The `dest` parameter is accepted but, as in the
source, never used. -/
def download_single_file (lib : HubLib) (fsys : FileSystem)
    (repo_id filename : String) (dest : Option String) (revision : String)
    (token cache_dir local_dir : Option String) :
    List Event × Except Exn (String × Nat) :=
  let startEvents := send_progress "start"
    [("repo_id", Json.str repo_id), ("filename", Json.str filename),
     ("revision", Json.str revision)]
  let kwargs := single_file_kwargs repo_id filename revision token cache_dir local_dir
  match lib.hf_hub_download kwargs with
  | .ok file_path =>
      let file_size := if fsys.pathExists file_path then fsys.getsize file_path else 0
      (startEvents ++ send_complete
        [("file_path", Json.str file_path), ("file_size", Json.num (file_size : Int)),
         ("repo_id", Json.str repo_id), ("filename", Json.str filename)],
       .ok (file_path, file_size))
  | .error e =>
      (startEvents ++ send_error e.message (some e.name), .error e)

/-- `download_snapshot` (source lines 156–227).  Emits `"start"`, calls
`snapshot_download`, then on success aggregates file count and total size
over the resulting tree and emits `"complete"`; on exception emits
`"error"` and re-raises. -/
def download_snapshot (lib : HubLib) (fsys : FileSystem)
    (repo_id : String) (dest : Option String) (revision : String)
    (token cache_dir : Option String)
    (allow_patterns ignore_patterns : Option (List String)) :
    List Event × Except Exn (String × Nat × Nat) :=
  let startEvents := send_progress "start"
    [("repo_id", Json.str repo_id), ("revision", Json.str revision),
     ("type", Json.str "snapshot")]
  let kwargs := snapshot_kwargs repo_id revision token cache_dir
    allow_patterns ignore_patterns dest
  match lib.snapshot_download kwargs with
  | .ok snapshot_path =>
      let agg := snapshotAggregate fsys snapshot_path
      (startEvents ++ send_complete
        [("snapshot_path", Json.str snapshot_path),
         ("file_count", Json.num (agg.2 : Int)),
         ("total_size", Json.num (agg.1 : Int)),
         ("repo_id", Json.str repo_id)],
       .ok (snapshot_path, agg.2, agg.1))
  | .error e =>
      (startEvents ++ send_error e.message (some e.name), .error e)

/-- `get_file_url` (source lines 230–242): resolve the direct URL, emit
`"complete"` on success, `"error"` plus re-raise on exception. -/
def get_file_url (lib : HubLib) (repo_id filename revision : String) :
    List Event × Except Exn String :=
  match lib.hf_hub_url repo_id filename revision with
  | .ok url =>
      (send_complete
        [("url", Json.str url), ("repo_id", Json.str repo_id),
         ("filename", Json.str filename)], .ok url)
  | .error e =>
      (send_error e.message (some e.name), .error e)

/-- `check_available` (source lines 245–250): one `"complete"` event with
the availability flag and a hard-coded null version. -/
def check_available (hf_available : Bool) : List Event :=
  send_complete [("available", Json.bool hf_available), ("version", Json.null)]

/-! ## main and the process -/

/-- Process environment: `os.environ.get`. -/
structure Env where
  get : String → Option String

/-- Parsed argparse namespace with its defaults: string options default to
`None` (`revision` to `"main"`), flags to `False`. -/
structure Args where
  repo_id : Option String
  filename : Option String
  dest : Option String
  revision : String
  token : Option String
  cache_dir : Option String
  snapshot : Bool
  allow_patterns : Option String
  ignore_patterns : Option String
  url_only : Bool
  check : Bool
deriving DecidableEq, Repr

/-- How the process terminates: `sys.exit(int)`, `sys.exit(str)` (prints the
string and exits 1), an uncaught exception (exit 1), or an argparse
`parser.error` (exit 2, before any JSON is emitted). -/
inductive ProcExit where
  | code (n : Nat)
  | strMessage (s : String)
  | uncaught (e : Exn)
  | usage
deriving DecidableEq, Repr

/-- Whether the process exit status is non-zero. -/
def ProcExit.isNonzero : ProcExit → Bool
  | .code n => n != 0
  | .strMessage _ => true
  | .uncaught _ => true
  | .usage => true

/-- `args.token = os.environ.get("HF_TOKEN")` fallback (source lines
302–303), applied only when the CLI value is falsy. -/
def resolveToken (env : Env) (cli : Option String) : Option String :=
  if pyTruthyStr cli then cli else env.get "HF_TOKEN"

/-- Cache-dir fallback (source lines 306–307):
`os.environ.get("HF_HUB_CACHE") or os.environ.get("HUGGINGFACE_HUB_CACHE")`,
applied only when the CLI value is falsy.  Python `or` keeps the first
operand only when it is truthy, so an empty-string `HF_HUB_CACHE` falls
through. -/
def resolveCacheDir (env : Env) (cli : Option String) : Option String :=
  if pyTruthyStr cli then cli
  else pyOrStr (env.get "HF_HUB_CACHE") (env.get "HUGGINGFACE_HUB_CACHE")

/-- `main()` (source lines 253–343), given the parsed args: check mode,
required-argument validation, env fallbacks, then exactly one of the three
operations.  Returns the emitted events and the process exit status
(`sys.exit(main())`), where an exception escaping an operation becomes
`ProcExit.uncaught`.  Note that the url-only branch `return`s the URL
string itself, so `sys.exit` receives a string on success. -/
def main (lib : HubLib) (fsys : FileSystem) (env : Env) (args : Args) :
    List Event × ProcExit :=
  if args.check then (check_available true, .code 0)
  else
    match args.repo_id with
    | none => ([], .usage)
    | some repo_id =>
      if repo_id = "" then ([], .usage)
      else
        let token := resolveToken env args.token
        let cache_dir := resolveCacheDir env args.cache_dir
        if args.url_only then
          match args.filename with
          | none => ([], .usage)
          | some filename =>
            if filename = "" then ([], .usage)
            else
              match get_file_url lib repo_id filename args.revision with
              | (evs, .ok url) => (evs, .strMessage url)
              | (evs, .error e) => (evs, .uncaught e)
        else if args.snapshot then
          let allow_patterns := splitPatterns args.allow_patterns
          let ignore_patterns := splitPatterns args.ignore_patterns
          match download_snapshot lib fsys repo_id args.dest args.revision
              token cache_dir allow_patterns ignore_patterns with
          | (evs, .ok _) => (evs, .code 0)
          | (evs, .error e) => (evs, .uncaught e)
        else
          match args.filename with
          | none => ([], .usage)
          | some filename =>
            if filename = "" then ([], .usage)
            else
              match download_single_file lib fsys repo_id filename args.dest
                  args.revision token cache_dir none with
              | (evs, .ok _) => (evs, .code 0)
              | (evs, .error e) => (evs, .uncaught e)

/-- The whole process including the import guard (source lines 26–34): when
importing huggingface_hub fails, the script writes to stderr and exits 1
before emitting any JSON or parsing arguments; otherwise `HF_AVAILABLE` is
true and `main` runs. -/
def runProcess (hf_import_ok : Bool) (lib : HubLib) (fsys : FileSystem)
    (env : Env) (args : Args) : List Event × ProcExit :=
  if hf_import_ok then main lib fsys env args else ([], .code 1)

/-! ## ProgressReporter -/

/-- `ProgressReporter.__init__` state (source lines 67–74): byte counters,
time of the last emission (0 initially), and the fixed 0.5 s interval.
Wall-clock times are modelled as rationals. -/
structure ProgressReporter where
  current_bytes : Int
  total_bytes : Int
  last_report_time : ℚ
  report_interval : ℚ
deriving DecidableEq, Repr

/-- A freshly constructed `ProgressReporter()`. -/
def ProgressReporter.init : ProgressReporter := ⟨0, 0, 0, 1/2⟩

/-- The two counter updates at the top of `report` (source lines 81–84). -/
def setTotals (st : ProgressReporter) (current total : Option Int) : ProgressReporter :=
  ⟨current.getD st.current_bytes, total.getD st.total_bytes,
   st.last_report_time, st.report_interval⟩

/-- The guarded percentage of source line 90:
`(current / total * 100) if total > 0 else 0`; the division branch is taken
only when `total > 0`. -/
def progressPercentage (current total : Int) : ℚ :=
  if total > 0 then (current : ℚ) / (total : ℚ) * 100 else 0

/-- `ProgressReporter.report` (source lines 76–92), with the call time
passed in for `time.time()`: update the counters, and emit one `"progress"`
event only when at least `report_interval` has elapsed since
`last_report_time`, updating `last_report_time` on emission. -/
def ProgressReporter.report (st : ProgressReporter) (now : ℚ)
    (current total : Option Int) : ProgressReporter × List Event :=
  let st1 := setTotals st current total
  if now - st1.last_report_time ≥ st1.report_interval then
    (⟨st1.current_bytes, st1.total_bytes, now, st1.report_interval⟩,
     send_progress "progress"
       [("current", Json.num st1.current_bytes),
        ("total", Json.num st1.total_bytes),
        ("percentage", Json.rat (progressPercentage st1.current_bytes st1.total_bytes))])
  else (st1, [])

/-! ## Spec-side aggregation (for the snapshot refinement claim) -/

mutual
/-- Written from the spec's words: "the number of non-symlink files under
the resulting directory tree". -/
def FSTree.specNonLinkCount : FSTree → Nat
  | .file _ l => if l then 0 else 1
  | .dir es => FSList.specNonLinkCount es

def FSList.specNonLinkCount : FSList → Nat
  | .nil => 0
  | .cons _ c rest => FSTree.specNonLinkCount c + FSList.specNonLinkCount rest
end

mutual
/-- Written from the spec's words: "the sum of those files' byte sizes"
over the non-symlink files under the tree. -/
def FSTree.specNonLinkSize : FSTree → Nat
  | .file sz l => if l then 0 else sz
  | .dir es => FSList.specNonLinkSize es

def FSList.specNonLinkSize : FSList → Nat
  | .nil => 0
  | .cons _ c rest => FSTree.specNonLinkSize c + FSList.specNonLinkSize rest
end

/-- Total size of the non-symlink entries of a walked file list. -/
def sumNonLink (l : List (Nat × Bool)) : Nat :=
  ((l.filter (fun f => f.2 = false)).map Prod.fst).sum

/-- Number of non-symlink entries of a walked file list. -/
def countNonLink (l : List (Nat × Bool)) : Nat :=
  (l.filter (fun f => f.2 = false)).length

theorem sumNonLink_append (a b : List (Nat × Bool)) :
    sumNonLink (a ++ b) = sumNonLink a + sumNonLink b := by
  simp [sumNonLink, List.filter_append]

theorem countNonLink_append (a b : List (Nat × Bool)) :
    countNonLink (a ++ b) = countNonLink a + countNonLink b := by
  simp [countNonLink, List.filter_append]

/-- The aggregation fold of `download_snapshot` computes exactly the
non-symlink size and count of the walked file list. -/
theorem foldAgg_eq (l : List (Nat × Bool)) (acc : Nat × Nat) :
    l.foldl (fun acc f => if f.2 = false then (acc.1 + f.1, acc.2 + 1) else acc) acc
      = (acc.1 + sumNonLink l, acc.2 + countNonLink l) := by
  induction l generalizing acc with
  | nil => simp [sumNonLink, countNonLink]
  | cons f rest ih =>
      rcases f with ⟨sz, lnk⟩
      cases lnk <;>
        simp [List.foldl_cons, ih, sumNonLink, countNonLink, List.filter] <;> omega

/-- Walking a directory and summing non-symlink file sizes agrees with the
spec-side recursive size. -/
theorem fslist_walk_sum : ∀ es : FSList,
    sumNonLink (FSList.ownFiles es ++ FSList.subWalks es) = FSList.specNonLinkSize es
  | .nil => by
      simp [FSList.ownFiles, FSList.subWalks, FSList.specNonLinkSize, sumNonLink]
  | .cons _ (.file sz lnk) rest => by
      have ih := fslist_walk_sum rest
      rw [FSList.ownFiles, FSList.subWalks]
      cases lnk <;>
        simp_all [sumNonLink_append, FSList.specNonLinkSize, FSTree.specNonLinkSize,
          sumNonLink] <;> omega
  | .cons _ (.dir es') rest => by
      have ih := fslist_walk_sum rest
      have ih' := fslist_walk_sum es'
      rw [FSList.ownFiles, FSList.subWalks]
      simp only [FSTree.walkFiles, List.nil_append, sumNonLink_append] at *
      rw [FSList.specNonLinkSize, FSTree.specNonLinkSize]
      omega

/-- Walking a directory and counting non-symlink files agrees with the
spec-side recursive count. -/
theorem fslist_walk_count : ∀ es : FSList,
    countNonLink (FSList.ownFiles es ++ FSList.subWalks es) = FSList.specNonLinkCount es
  | .nil => by
      simp [FSList.ownFiles, FSList.subWalks, FSList.specNonLinkCount, countNonLink]
  | .cons _ (.file sz lnk) rest => by
      have ih := fslist_walk_count rest
      rw [FSList.ownFiles, FSList.subWalks]
      cases lnk <;>
        simp_all [countNonLink_append, FSList.specNonLinkCount, FSTree.specNonLinkCount,
          countNonLink] <;> omega
  | .cons _ (.dir es') rest => by
      have ih := fslist_walk_count rest
      have ih' := fslist_walk_count es'
      rw [FSList.ownFiles, FSList.subWalks]
      simp only [FSTree.walkFiles, List.nil_append, countNonLink_append] at *
      rw [FSList.specNonLinkCount, FSTree.specNonLinkCount]
      omega

/-- The whole source aggregation on an existing directory equals the
spec-side pair. -/
theorem snapshotAggregate_eq (fsys : FileSystem) (p : String) (es : FSList)
    (hex : fsys.pathExists p = true) (htree : fsys.tree p = FSTree.dir es) :
    snapshotAggregate fsys p = (FSList.specNonLinkSize es, FSList.specNonLinkCount es) := by
  rw [snapshotAggregate, hex, if_pos rfl, htree, FSTree.walkFiles, foldAgg_eq,
    fslist_walk_sum, fslist_walk_count]
  simp

/-! ## Concrete fixtures -/

/-- A concrete exception, as raised by the hub library. -/
def exn0 : Exn := ⟨"404 Client Error", "HfHubHTTPError"⟩

/-- A hub library in which every call raises `exn0`. -/
def errLib : HubLib :=
  ⟨fun _ => .error exn0, fun _ => .error exn0, fun _ _ _ => .error exn0⟩

/-- A hub library in which every call succeeds. -/
def okLib : HubLib :=
  ⟨fun _ => .ok "/cache/file.bin", fun _ => .ok "/snap",
   fun r f _ => .ok ("https://huggingface.co/" ++ r ++ "/" ++ f)⟩

/-- Entries of a sample snapshot tree: a 3-byte file, a 5-byte symlink, and
a subdirectory holding a 7-byte file. -/
def tree0entries : FSList :=
  .cons "a.bin" (.file 3 false)
    (.cons "link" (.file 5 true)
      (.cons "sub" (.dir (.cons "b.bin" (.file 7 false) .nil)) .nil))

/-- A filesystem whose every path exists, has size 42 as a single file, and
walks as `tree0entries`. -/
def fsys0 : FileSystem := ⟨fun _ => true, fun _ => 42, fun _ => .dir tree0entries⟩

/-- An empty environment. -/
def env0 : Env := ⟨fun _ => none⟩

/-! ## Claims -/

/-- C2: for every successful snapshot download, the `"complete"` event
reports `file_count` equal to the number of non-symlink files under the
resulting directory tree and `total_size` equal to the sum of their byte
sizes. -/
theorem snapshot_complete_aggregates (lib : HubLib) (fsys : FileSystem)
    (repo_id revision p : String) (dest token cache_dir : Option String)
    (ap ip : Option (List String)) (es : FSList)
    (hok : lib.snapshot_download
        (snapshot_kwargs repo_id revision token cache_dir ap ip dest) = Except.ok p)
    (hex : fsys.pathExists p = true)
    (htree : fsys.tree p = FSTree.dir es) :
    eventsOfType
        (download_snapshot lib fsys repo_id dest revision token cache_dir ap ip).1
        "complete"
      = [⟨"complete",
          [("snapshot_path", Json.str p),
           ("file_count", Json.num (FSList.specNonLinkCount es : Int)),
           ("total_size", Json.num (FSList.specNonLinkSize es : Int)),
           ("repo_id", Json.str repo_id)]⟩] := by
  simp only [download_snapshot, hok]
  rw [snapshotAggregate_eq fsys p es hex htree]
  rfl

/-- Witness for C2 on the sample tree: 2 non-symlink files, 10 bytes. -/
theorem snapshot_complete_aggregates_witness :
    (okLib.snapshot_download
        (snapshot_kwargs "gpt2" "main" none none none none none) = Except.ok "/snap")
    ∧ (fsys0.pathExists "/snap" = true)
    ∧ (fsys0.tree "/snap" = FSTree.dir tree0entries)
    ∧ eventsOfType
        (download_snapshot okLib fsys0 "gpt2" none "main" none none none none).1
        "complete"
      = [⟨"complete",
          [("snapshot_path", Json.str "/snap"),
           ("file_count", Json.num 2),
           ("total_size", Json.num 10),
           ("repo_id", Json.str "gpt2")]⟩] :=
  ⟨rfl, rfl, rfl,
   snapshot_complete_aggregates okLib fsys0 "gpt2" "main" "/snap"
     none none none none none tree0entries rfl rfl rfl⟩

/-- C3: for every successful single-file download, the adapter emits
exactly one `"start"` event, which precedes exactly one `"complete"` event,
and the `"complete"` event carries the resolved file path and a
non-negative file size. -/
theorem single_file_success_events (lib : HubLib) (fsys : FileSystem)
    (repo_id filename revision p : String)
    (dest token cache_dir local_dir : Option String)
    (hok : lib.hf_hub_download
        (single_file_kwargs repo_id filename revision token cache_dir local_dir)
      = Except.ok p) :
    (download_single_file lib fsys repo_id filename dest revision
        token cache_dir local_dir).1
      = [⟨"start",
          [("repo_id", Json.str repo_id), ("filename", Json.str filename),
           ("revision", Json.str revision)]⟩,
         ⟨"complete",
          [("file_path", Json.str p),
           ("file_size",
            Json.num ((if fsys.pathExists p then fsys.getsize p else 0 : Nat) : Int)),
           ("repo_id", Json.str repo_id), ("filename", Json.str filename)]⟩]
    ∧ countType (download_single_file lib fsys repo_id filename dest revision
        token cache_dir local_dir).1 "start" = 1
    ∧ countType (download_single_file lib fsys repo_id filename dest revision
        token cache_dir local_dir).1 "complete" = 1
    ∧ (0 : Int) ≤ ((if fsys.pathExists p then fsys.getsize p else 0 : Nat) : Int) := by
  refine ⟨?_, ?_, ?_, Int.natCast_nonneg _⟩ <;>
    simp only [download_single_file, hok] <;> rfl

/-- Witness for C3 at a concrete successful download. -/
theorem single_file_success_events_witness :
    (okLib.hf_hub_download
        (single_file_kwargs "gpt2" "config.json" "main" none none none)
      = Except.ok "/cache/file.bin")
    ∧ countType (download_single_file okLib fsys0 "gpt2" "config.json" none "main"
        none none none).1 "start" = 1
    ∧ countType (download_single_file okLib fsys0 "gpt2" "config.json" none "main"
        none none none).1 "complete" = 1
    ∧ (0 : Int) ≤ ((if fsys0.pathExists "/cache/file.bin"
        then fsys0.getsize "/cache/file.bin" else 0 : Nat) : Int) :=
  ⟨rfl,
   (single_file_success_events okLib fsys0 "gpt2" "config.json" "main"
      "/cache/file.bin" none none none none rfl).2.1,
   (single_file_success_events okLib fsys0 "gpt2" "config.json" "main"
      "/cache/file.bin" none none none none rfl).2.2.1,
   (single_file_success_events okLib fsys0 "gpt2" "config.json" "main"
      "/cache/file.bin" none none none none rfl).2.2.2⟩

/-- C4 (refuting the claim): the `dest` parameter of `download_single_file`
is accepted but never consulted — the kwargs delegated to `hf_hub_download`
are independent of it and contain no destination, contradicting the
function's own docstring ("dest: Optional destination directory") and the
module usage examples.  At the failing input
`--repo-id gpt2 --filename config.json --dest ./models`, the delegated
kwargs carry no trace of `./models`, and the whole invocation behaves
exactly as if `--dest` had been omitted. -/
theorem single_file_dest_dropped :
    (∀ (lib : HubLib) (fsys : FileSystem) (repo_id filename revision : String)
        (d1 d2 token cache_dir local_dir : Option String),
        download_single_file lib fsys repo_id filename d1 revision
            token cache_dir local_dir
          = download_single_file lib fsys repo_id filename d2 revision
            token cache_dir local_dir)
    ∧ single_file_kwargs "gpt2" "config.json" "main" none none none
      = ⟨"gpt2", "config.json", "main", none, none, none, none⟩
    ∧ main okLib fsys0 env0
        ⟨some "gpt2", some "config.json", some "./models", "main", none, none,
         false, none, none, false, false⟩
      = main okLib fsys0 env0
        ⟨some "gpt2", some "config.json", none, "main", none, none,
         false, none, none, false, false⟩ :=
  ⟨fun _ _ _ _ _ _ _ _ _ _ => rfl, rfl, rfl⟩

/-- An argparse namespace for `--check` alone. -/
def argsCheck : Args :=
  ⟨none, none, none, "main", none, none, false, none, none, false, true⟩

/-- C5 counterexample: when huggingface_hub cannot be imported, the import
guard exits with code 1 before any JSON is emitted, so a `--check`
invocation emits zero `"complete"` events and the exit code is non-zero —
refuting "regardless of environment ... exits with code 0". -/
theorem check_exit_zero_cx :
    argsCheck.check = true
    ∧ runProcess false okLib fsys0 env0 argsCheck = ([], ProcExit.code 1)
    ∧ countType (runProcess false okLib fsys0 env0 argsCheck).1 "complete" = 0
    ∧ ProcExit.isNonzero (runProcess false okLib fsys0 env0 argsCheck).2 = true :=
  ⟨rfl, rfl, rfl, rfl⟩

/-- C5 amended: whenever the library import succeeds (so the script reaches
`main`), a `--check` invocation emits exactly one `"complete"` event
carrying the boolean availability flag and exits with code 0; when the
module guard fails, the process exits 1 before emitting any event. -/
theorem check_complete_amended (lib : HubLib) (fsys : FileSystem) (env : Env)
    (args : Args) (h : args.check = true) :
    (runProcess true lib fsys env args).1
      = [⟨"complete", [("available", Json.bool true), ("version", Json.null)]⟩]
    ∧ countType (runProcess true lib fsys env args).1 "complete" = 1
    ∧ (runProcess true lib fsys env args).2 = ProcExit.code 0 := by
  refine ⟨?_, ?_, ?_⟩ <;>
    simp [runProcess, main, h, check_available, send_complete, countType]

/-- Witness for the amended C5 at the concrete `--check` invocation. -/
theorem check_complete_amended_witness :
    argsCheck.check = true
    ∧ countType (runProcess true okLib fsys0 env0 argsCheck).1 "complete" = 1
    ∧ (runProcess true okLib fsys0 env0 argsCheck).2 = ProcExit.code 0 :=
  ⟨rfl, (check_complete_amended okLib fsys0 env0 argsCheck rfl).2.1,
   (check_complete_amended okLib fsys0 env0 argsCheck rfl).2.2⟩

/-- The cache-dir fallback as the claim reads: `HF_HUB_CACHE` wins whenever
it is set (to any value, the empty string included). -/
def claimCacheDirFallback (env : Env) : Option String :=
  match env.get "HF_HUB_CACHE" with
  | some v => some v
  | none => env.get "HUGGINGFACE_HUB_CACHE"

/-- An environment with `HF_HUB_CACHE` set to the empty string and
`HUGGINGFACE_HUB_CACHE` set to `/x`. -/
def envEmptyHF : Env :=
  ⟨fun k =>
    if k = "HF_HUB_CACHE" then some ""
    else if k = "HUGGINGFACE_HUB_CACHE" then some "/x" else none⟩

/-- C6 counterexample: with `HF_HUB_CACHE` set (to the empty string) and
`HUGGINGFACE_HUB_CACHE` set to `/x`, Python's `or` discards the falsy empty
string, so the value used is `/x`, not the set `HF_HUB_CACHE` value the
claim demands. -/
theorem cache_dir_cx :
    envEmptyHF.get "HF_HUB_CACHE" = some ""
    ∧ envEmptyHF.get "HUGGINGFACE_HUB_CACHE" = some "/x"
    ∧ resolveCacheDir envEmptyHF none = some "/x"
    ∧ claimCacheDirFallback envEmptyHF = some ""
    ∧ resolveCacheDir envEmptyHF none ≠ claimCacheDirFallback envEmptyHF :=
  ⟨rfl, rfl, rfl, rfl, by decide⟩

/-- C6 amended: when `--cache-dir` is omitted, the value used equals
`HF_HUB_CACHE` if that variable is set to a non-empty string, otherwise
`HUGGINGFACE_HUB_CACHE` (or none if unset); an empty `HF_HUB_CACHE` is
treated as unset.  When both are set non-empty, `HF_HUB_CACHE` wins. -/
theorem cache_dir_resolution_amended (env : Env) (args : Args)
    (h : args.cache_dir = none) :
    (∀ v : String, env.get "HF_HUB_CACHE" = some v → v ≠ "" →
        resolveCacheDir env args.cache_dir = some v)
    ∧ ((env.get "HF_HUB_CACHE" = none ∨ env.get "HF_HUB_CACHE" = some "") →
        resolveCacheDir env args.cache_dir = env.get "HUGGINGFACE_HUB_CACHE") := by
  rw [h]
  constructor
  · intro v hv hne
    simp [resolveCacheDir, pyTruthyStr, pyOrStr, hv, hne]
  · rintro (hv | hv) <;> simp [resolveCacheDir, pyTruthyStr, pyOrStr, hv]

/-- An environment with both cache variables set non-empty. -/
def envBothCaches : Env :=
  ⟨fun k =>
    if k = "HF_HUB_CACHE" then some "/a"
    else if k = "HUGGINGFACE_HUB_CACHE" then some "/b" else none⟩

/-- Witness for the amended C6: `HF_HUB_CACHE` wins when both are set
non-empty, and everything falls to none in an empty environment. -/
theorem cache_dir_resolution_amended_witness :
    resolveCacheDir envBothCaches argsCheck.cache_dir = some "/a"
    ∧ resolveCacheDir env0 argsCheck.cache_dir = env0.get "HUGGINGFACE_HUB_CACHE" :=
  ⟨(cache_dir_resolution_amended envBothCaches argsCheck rfl).1 "/a" rfl (by decide),
   (cache_dir_resolution_amended env0 argsCheck rfl).2 (Or.inl rfl)⟩

/-- `str.split` never returns an empty list. -/
theorem splitCommaChars_ne_nil (l : List Char) : splitCommaChars l ≠ [] := by
  cases l with
  | nil => simp [splitCommaChars]
  | cons c rest =>
      rw [splitCommaChars]
      split
      · simp
      · split <;> simp

/-- `s.split(",")` never returns an empty list. -/
theorem pySplitComma_ne_nil (s : String) : pySplitComma s ≠ [] := by
  simpa [pySplitComma] using splitCommaChars_ne_nil s.toList

/-- C7: a comma-separated `--allow-patterns "a,b,c"` is split into the
ordered sequence `["a", "b", "c"]`, which lands in the kwargs handed to the
snapshot primitive; an omitted pattern argument is passed as absent. -/
theorem allow_patterns_split (repo_id revision : String)
    (token cache_dir dest : Option String) (ip : Option (List String)) :
    splitPatterns (some "a,b,c") = some ["a", "b", "c"]
    ∧ (snapshot_kwargs repo_id revision token cache_dir
        (splitPatterns (some "a,b,c")) ip dest).allow_patterns = some ["a", "b", "c"]
    ∧ (∀ s : String, s ≠ "" →
        (snapshot_kwargs repo_id revision token cache_dir
          (splitPatterns (some s)) ip dest).allow_patterns = some (pySplitComma s))
    ∧ splitPatterns none = none
    ∧ (snapshot_kwargs repo_id revision token cache_dir
        (splitPatterns none) ip dest).allow_patterns = none := by
  refine ⟨by decide, rfl, ?_, rfl, rfl⟩
  intro s hs
  have hnil := pySplitComma_ne_nil s
  simp [snapshot_kwargs, splitPatterns, hs, pyTruthyList, List.isEmpty_eq_false, hnil]

/-- Witness for C7 at `"x,y"` and at the concrete `"a,b,c"` splitting. -/
theorem allow_patterns_split_witness :
    splitPatterns (some "a,b,c") = some ["a", "b", "c"]
    ∧ (snapshot_kwargs "gpt2" "main" none none
        (splitPatterns (some "x,y")) none none).allow_patterns
      = some (pySplitComma "x,y")
    ∧ (snapshot_kwargs "gpt2" "main" none none
        (splitPatterns none) none none).allow_patterns = none :=
  ⟨(allow_patterns_split "gpt2" "main" none none none none).1,
   (allow_patterns_split "gpt2" "main" none none none none).2.2.1 "x,y" (by decide),
   (allow_patterns_split "gpt2" "main" none none none none).2.2.2.2⟩

/-- C8: a call to `ProgressReporter.report` emits a `"progress"` event only
if at least 0.5 s have elapsed since the reporter's last emission (tracked
in `last_report_time`, which is updated exactly on emission); a call
arriving sooner emits nothing. -/
theorem progress_rate_limited (st : ProgressReporter) (now : ℚ)
    (current total : Option Int) (hi : st.report_interval = 1/2) :
    ((st.report now current total).2 ≠ [] ↔ now - st.last_report_time ≥ 1/2)
    ∧ (now - st.last_report_time < 1/2 → (st.report now current total).2 = [])
    ∧ (∀ e ∈ (st.report now current total).2, e.type = "progress")
    ∧ (st.report now current total).2.length ≤ 1
    ∧ ((st.report now current total).2 ≠ []
        → (st.report now current total).1.last_report_time = now) := by
  simp only [ProgressReporter.report, setTotals, hi, send_progress]
  by_cases hcond : now - st.last_report_time ≥ 1/2
  · rw [if_pos hcond]
    refine ⟨by simpa using hcond, fun hlt => absurd hcond (not_le.mpr hlt), ?_, by simp, fun _ => rfl⟩
    intro e he
    simp only [List.mem_singleton] at he
    rw [he]
  · rw [if_neg hcond]
    push_neg at hcond
    exact ⟨by simpa using not_le.mpr hcond, fun _ => rfl, by simp, by simp, fun hne => absurd rfl hne⟩

/-- Witness for C8: a fresh reporter at time 1 is past its interval, and
if it were inside the interval it would emit nothing. -/
theorem progress_rate_limited_witness :
    ProgressReporter.init.report_interval = 1/2
    ∧ ((ProgressReporter.init.report 1 (some 5) (some 10)).2 ≠ []
        ↔ (1 : ℚ) - ProgressReporter.init.last_report_time ≥ 1/2)
    ∧ ((1 : ℚ) - ProgressReporter.init.last_report_time < 1/2
        → (ProgressReporter.init.report 1 (some 5) (some 10)).2 = []) :=
  ⟨rfl, (progress_rate_limited ProgressReporter.init 1 (some 5) (some 10) rfl).1,
   (progress_rate_limited ProgressReporter.init 1 (some 5) (some 10) rfl).2.1⟩

/-- C10: the percentage computation of `report` is guarded — whenever the
(updated) `total_bytes` is not greater than 0, the percentage is 0 and the
division branch is not taken, so every `"progress"` event emitted in that
state carries percentage 0. -/
theorem percentage_division_guarded (st : ProgressReporter) (now : ℚ)
    (current total : Option Int)
    (h : (setTotals st current total).total_bytes ≤ 0) :
    progressPercentage (setTotals st current total).current_bytes
        (setTotals st current total).total_bytes = 0
    ∧ (∀ e ∈ (st.report now current total).2,
        List.lookup "percentage" e.data = some (Json.rat 0)) := by
  have hpct : progressPercentage (setTotals st current total).current_bytes
      (setTotals st current total).total_bytes = 0 := by
    rw [progressPercentage, if_neg (not_lt.mpr h)]
  refine ⟨hpct, ?_⟩
  intro e he
  simp only [ProgressReporter.report, send_progress] at he
  split at he
  · simp only [List.mem_singleton] at he
    rw [he]
    simp [hpct, List.lookup]
  · simp at he

/-- Witness for C10: a call reporting 5 of total 0 bytes. -/
theorem percentage_division_guarded_witness :
    (setTotals ProgressReporter.init (some 5) (some 0)).total_bytes ≤ 0
    ∧ progressPercentage (setTotals ProgressReporter.init (some 5) (some 0)).current_bytes
        (setTotals ProgressReporter.init (some 5) (some 0)).total_bytes = 0
    ∧ (∀ e ∈ (ProgressReporter.init.report 1 (some 5) (some 0)).2,
        List.lookup "percentage" e.data = some (Json.rat 0)) :=
  ⟨by decide,
   (percentage_division_guarded ProgressReporter.init 1 (some 5) (some 0) (by decide)).1,
   (percentage_division_guarded ProgressReporter.init 1 (some 5) (some 0) (by decide)).2⟩

/-- No call path of `download_single_file` emits a `"progress"` event. -/
theorem single_no_progress (lib : HubLib) (fsys : FileSystem)
    (repo_id filename : String) (dest : Option String) (revision : String)
    (token cache_dir local_dir : Option String) :
    countType (download_single_file lib fsys repo_id filename dest revision
      token cache_dir local_dir).1 "progress" = 0 := by
  cases hx : lib.hf_hub_download
      (single_file_kwargs repo_id filename revision token cache_dir local_dir) <;>
    simp only [download_single_file, hx] <;> rfl

/-- No call path of `download_snapshot` emits a `"progress"` event. -/
theorem snapshot_no_progress (lib : HubLib) (fsys : FileSystem)
    (repo_id : String) (dest : Option String) (revision : String)
    (token cache_dir : Option String) (ap ip : Option (List String)) :
    countType (download_snapshot lib fsys repo_id dest revision
      token cache_dir ap ip).1 "progress" = 0 := by
  cases hx : lib.snapshot_download
      (snapshot_kwargs repo_id revision token cache_dir ap ip dest) <;>
    simp only [download_snapshot, hx] <;> rfl

/-- No call path of `get_file_url` emits a `"progress"` event. -/
theorem url_no_progress (lib : HubLib) (repo_id filename revision : String) :
    countType (get_file_url lib repo_id filename revision).1 "progress" = 0 := by
  cases hx : lib.hf_hub_url repo_id filename revision <;>
    simp only [get_file_url, hx] <;> rfl

/-- C9: no invocation of the adapter — check, URL resolution, single-file
download, or snapshot download, whatever the environment and however the
external library behaves — emits any `"progress"` event: the
`ProgressReporter` class is defined but never constructed by any
operation. -/
theorem no_progress_events (hf_import_ok : Bool) (lib : HubLib)
    (fsys : FileSystem) (env : Env) (args : Args) :
    countType (runProcess hf_import_ok lib fsys env args).1 "progress" = 0 := by
  obtain ⟨rid, fn, dest, rev, tok, cd, snap, ap, ip, uo, chk⟩ := args
  cases hf_import_ok
  · rfl
  · cases chk
    · cases rid with
      | none => rfl
      | some repo =>
        by_cases hr : repo = ""
        · simp [runProcess, main, hr, countType]
        · cases uo
          · cases snap
            · cases fn with
              | none => simp [runProcess, main, hr, countType]
              | some f =>
                by_cases hf2 : f = ""
                · simp [runProcess, main, hr, hf2, countType]
                · rcases hx : download_single_file lib fsys repo f dest rev
                      (resolveToken env tok) (resolveCacheDir env cd) none
                    with ⟨evs, res⟩
                  have h0 := single_no_progress lib fsys repo f dest rev
                    (resolveToken env tok) (resolveCacheDir env cd) none
                  rw [hx] at h0
                  cases res <;> simp [runProcess, main, hr, hf2, hx] <;> simpa using h0
            · rcases hx : download_snapshot lib fsys repo dest rev
                  (resolveToken env tok) (resolveCacheDir env cd)
                  (splitPatterns ap) (splitPatterns ip)
                with ⟨evs, res⟩
              have h0 := snapshot_no_progress lib fsys repo dest rev
                (resolveToken env tok) (resolveCacheDir env cd)
                (splitPatterns ap) (splitPatterns ip)
              rw [hx] at h0
              cases res <;> simp [runProcess, main, hr, hx] <;> simpa using h0
          · cases fn with
            | none => simp [runProcess, main, hr, countType]
            | some f =>
              by_cases hf2 : f = ""
              · simp [runProcess, main, hr, hf2, countType]
              · rcases hx : get_file_url lib repo f rev with ⟨evs, res⟩
                have h0 := url_no_progress lib repo f rev
                rw [hx] at h0
                cases res <;> simp [runProcess, main, hr, hf2, hx] <;> simpa using h0
    · rfl

/-- The argparse namespace of a single-file invocation. -/
def singleArgs (repo_id filename : String) (dest token cache_dir : Option String)
    (revision : String) (ap ip : Option String) : Args :=
  ⟨some repo_id, some filename, dest, revision, token, cache_dir, false, ap, ip,
   false, false⟩

/-- The argparse namespace of a `--snapshot` invocation. -/
def snapshotArgs (repo_id : String) (filename dest token cache_dir : Option String)
    (revision : String) (ap ip : Option String) : Args :=
  ⟨some repo_id, filename, dest, revision, token, cache_dir, true, ap, ip,
   false, false⟩

/-- The argparse namespace of a `--url-only` invocation. -/
def urlArgs (repo_id filename : String) (dest token cache_dir : Option String)
    (revision : String) (ap ip : Option String) : Args :=
  ⟨some repo_id, some filename, dest, revision, token, cache_dir, false, ap, ip,
   true, false⟩

/-! ## Fallible filesystem model

The `try` blocks of lines 111–153 and 173–227 also wrap the filesystem
inspection (`os.path.exists`, `os.path.islink`, `os.path.getsize`,
`os.walk`), any of which can itself raise (e.g. `OSError`); such an
exception reaches the same `except` clause as a library exception.  The
model below is the general embedding in which every filesystem call may
raise; the total `FileSystem` model above is its exception-free
restriction (see `aggregateFilesE_eq_fold` and
`download_single_fileE_lift`). -/

/-- The fallible filesystem oracle: `os.path.exists`, `os.path.islink`,
`os.path.getsize`, and the file paths yielded by `os.walk` (in walk
order), each able to raise. -/
structure FileSystemE where
  pathExists : String → Except Exn Bool
  islink : String → Except Exn Bool
  getsize : String → Except Exn Nat
  walk : String → Except Exn (List String)

/-- The file-size read of `download_single_file` (source line 137):
`os.path.getsize(file_path) if os.path.exists(file_path) else 0`, where
either call may raise. -/
def file_size_readE (fsys : FileSystemE) (file_path : String) : Except Exn Nat :=
  match fsys.pathExists file_path with
  | .error e => .error e
  | .ok ex => if ex then fsys.getsize file_path else .ok 0

/-- The inner aggregation loop of `download_snapshot` (source lines
205–210) over the walked file paths, with the accumulated
`(total_size, file_count)`: `os.path.exists` first, `os.path.islink` only
if it returned true (Python's short-circuit `and`), `os.path.getsize` only
for existing non-symlink files; the first exception aborts the loop. -/
def aggregateFilesE (fsys : FileSystemE) :
    List String → Nat × Nat → Except Exn (Nat × Nat)
  | [], acc => .ok acc
  | file_path :: rest, acc =>
      match fsys.pathExists file_path with
      | .error e => .error e
      | .ok ex =>
        if ex then
          match fsys.islink file_path with
          | .error e => .error e
          | .ok lnk =>
            if lnk = false then
              match fsys.getsize file_path with
              | .error e => .error e
              | .ok sz => aggregateFilesE fsys rest (acc.1 + sz, acc.2 + 1)
            else aggregateFilesE fsys rest acc
        else aggregateFilesE fsys rest acc

/-- The whole aggregation of `download_snapshot` (source lines 201–210) in
the fallible model: the outer `os.path.exists(snapshot_path)` check, then
the walk, then the per-file loop. -/
def snapshotAggregateE (fsys : FileSystemE) (snapshot_path : String) :
    Except Exn (Nat × Nat) :=
  match fsys.pathExists snapshot_path with
  | .error e => .error e
  | .ok ex =>
    if ex then
      match fsys.walk snapshot_path with
      | .error e => .error e
      | .ok files => aggregateFilesE fsys files (0, 0)
    else .ok (0, 0)

/-- `download_single_file` (source lines 95–153) over the fallible
filesystem: an exception raised by the library call or by the file-size
read is caught by the same `except`, reported as one `"error"` event, and
re-raised. -/
def download_single_fileE (lib : HubLib) (fsys : FileSystemE)
    (repo_id filename : String) (dest : Option String) (revision : String)
    (token cache_dir local_dir : Option String) :
    List Event × Except Exn (String × Nat) :=
  let startEvents := send_progress "start"
    [("repo_id", Json.str repo_id), ("filename", Json.str filename),
     ("revision", Json.str revision)]
  let kwargs := single_file_kwargs repo_id filename revision token cache_dir local_dir
  match lib.hf_hub_download kwargs with
  | .ok file_path =>
      match file_size_readE fsys file_path with
      | .ok file_size =>
          (startEvents ++ send_complete
            [("file_path", Json.str file_path),
             ("file_size", Json.num (file_size : Int)),
             ("repo_id", Json.str repo_id), ("filename", Json.str filename)],
           .ok (file_path, file_size))
      | .error e =>
          (startEvents ++ send_error e.message (some e.name), .error e)
  | .error e =>
      (startEvents ++ send_error e.message (some e.name), .error e)

/-- `download_snapshot` (source lines 156–227) over the fallible
filesystem: an exception raised by the library call or by the aggregation
walk is caught by the same `except`, reported as one `"error"` event, and
re-raised. -/
def download_snapshotE (lib : HubLib) (fsys : FileSystemE)
    (repo_id : String) (dest : Option String) (revision : String)
    (token cache_dir : Option String)
    (allow_patterns ignore_patterns : Option (List String)) :
    List Event × Except Exn (String × Nat × Nat) :=
  let startEvents := send_progress "start"
    [("repo_id", Json.str repo_id), ("revision", Json.str revision),
     ("type", Json.str "snapshot")]
  let kwargs := snapshot_kwargs repo_id revision token cache_dir
    allow_patterns ignore_patterns dest
  match lib.snapshot_download kwargs with
  | .ok snapshot_path =>
      match snapshotAggregateE fsys snapshot_path with
      | .ok agg =>
          (startEvents ++ send_complete
            [("snapshot_path", Json.str snapshot_path),
             ("file_count", Json.num (agg.2 : Int)),
             ("total_size", Json.num (agg.1 : Int)),
             ("repo_id", Json.str repo_id)],
           .ok (snapshot_path, agg.2, agg.1))
      | .error e =>
          (startEvents ++ send_error e.message (some e.name), .error e)
  | .error e =>
      (startEvents ++ send_error e.message (some e.name), .error e)

/-- `main()` over the fallible filesystem — identical to `main` except that
the two download operations run against `FileSystemE` (URL resolution and
the check mode touch no filesystem). -/
def mainE (lib : HubLib) (fsys : FileSystemE) (env : Env) (args : Args) :
    List Event × ProcExit :=
  if args.check then (check_available true, .code 0)
  else
    match args.repo_id with
    | none => ([], .usage)
    | some repo_id =>
      if repo_id = "" then ([], .usage)
      else
        let token := resolveToken env args.token
        let cache_dir := resolveCacheDir env args.cache_dir
        if args.url_only then
          match args.filename with
          | none => ([], .usage)
          | some filename =>
            if filename = "" then ([], .usage)
            else
              match get_file_url lib repo_id filename args.revision with
              | (evs, .ok url) => (evs, .strMessage url)
              | (evs, .error e) => (evs, .uncaught e)
        else if args.snapshot then
          let allow_patterns := splitPatterns args.allow_patterns
          let ignore_patterns := splitPatterns args.ignore_patterns
          match download_snapshotE lib fsys repo_id args.dest args.revision
              token cache_dir allow_patterns ignore_patterns with
          | (evs, .ok _) => (evs, .code 0)
          | (evs, .error e) => (evs, .uncaught e)
        else
          match args.filename with
          | none => ([], .usage)
          | some filename =>
            if filename = "" then ([], .usage)
            else
              match download_single_fileE lib fsys repo_id filename args.dest
                  args.revision token cache_dir none with
              | (evs, .ok _) => (evs, .code 0)
              | (evs, .error e) => (evs, .uncaught e)

/-- The whole process over the fallible filesystem, including the import
guard (source lines 26–34). -/
def runProcessE (hf_import_ok : Bool) (lib : HubLib) (fsys : FileSystemE)
    (env : Env) (args : Args) : List Event × ProcExit :=
  if hf_import_ok then mainE lib fsys env args else ([], .code 1)

/-- Lift an exception-free filesystem into the fallible model (`islink`
and `walk` are irrelevant to the single-file path). -/
def FileSystem.liftE (fsys : FileSystem) : FileSystemE :=
  ⟨fun p => .ok (fsys.pathExists p), fun _ => .ok false,
   fun p => .ok (fsys.getsize p), fun _ => .ok []⟩

/-- The exception state an operation fails in: exactly one `"error"` event
carrying the exception's message and class name, zero `"complete"` events,
and the exception re-raised for a non-zero process exit. -/
def errorOutcome (r : List Event × ProcExit) (e : Exn) : Prop :=
  eventsOfType r.1 "error"
      = [⟨"error", [("message", Json.str e.message), ("code", Json.str e.name)]⟩]
  ∧ countType r.1 "complete" = 0
  ∧ r.2 = ProcExit.uncaught e
  ∧ ProcExit.isNonzero r.2 = true

/-- An exception raised by `os.path.getsize` during aggregation. -/
def exn1 : Exn := ⟨"No such file or directory", "FileNotFoundError"⟩

/-- A fallible filesystem on which every inspection succeeds. -/
def fsysE0 : FileSystemE :=
  ⟨fun _ => .ok true, fun _ => .ok false, fun _ => .ok 42, fun _ => .ok []⟩

/-- A fallible filesystem on which `os.path.getsize` raises `exn1`:
existence and link checks succeed and the walk yields one file, whose size
read then fails. -/
def fsysEBad : FileSystemE :=
  ⟨fun _ => .ok true, fun _ => .ok false, fun _ => .error exn1,
   fun _ => .ok ["/snap/model.bin"]⟩

/-- When every inspection of the walked paths succeeds, the fallible
aggregation loop computes exactly the fold of `snapshotAggregate` over the
corresponding `(size, islink)` pairs. -/
theorem aggregateFilesE_eq_fold (fsys : FileSystemE)
    (sz : String → Nat) (lnk : String → Bool) :
    ∀ (ps : List String) (acc : Nat × Nat),
      (∀ fp ∈ ps, fsys.pathExists fp = .ok true
        ∧ fsys.islink fp = .ok (lnk fp) ∧ fsys.getsize fp = .ok (sz fp)) →
      aggregateFilesE fsys ps acc
        = .ok ((ps.map (fun fp => (sz fp, lnk fp))).foldl
            (fun acc f => if f.2 = false then (acc.1 + f.1, acc.2 + 1) else acc) acc)
  | [], acc => fun _ => rfl
  | fp :: rest, acc => by
      intro h
      obtain ⟨hex, hlnk, hsz⟩ := h fp (by simp)
      have hrest : ∀ q ∈ rest, fsys.pathExists q = .ok true
          ∧ fsys.islink q = .ok (lnk q) ∧ fsys.getsize q = .ok (sz q) :=
        fun q hq => h q (by simp [hq])
      have ih := aggregateFilesE_eq_fold fsys sz lnk rest
      rw [aggregateFilesE, hex]
      cases hl : lnk fp <;>
        simp only [hl, hlnk, hsz, if_true, if_pos rfl, ite_false, ite_true,
          Bool.true_eq_false, List.map_cons, List.foldl_cons] <;>
        exact ih _ hrest

/-- On a lifted exception-free filesystem, the fallible single-file
operation coincides with the exception-free one. -/
theorem download_single_fileE_lift (lib : HubLib) (fsys : FileSystem)
    (repo_id filename : String) (dest : Option String) (revision : String)
    (token cache_dir local_dir : Option String) :
    download_single_fileE lib fsys.liftE repo_id filename dest revision
        token cache_dir local_dir
      = download_single_file lib fsys repo_id filename dest revision
        token cache_dir local_dir := by
  cases hx : lib.hf_hub_download
      (single_file_kwargs repo_id filename revision token cache_dir local_dir) with
  | error e => simp only [download_single_fileE, download_single_file, hx]
  | ok p =>
      have hsize : file_size_readE fsys.liftE p
          = .ok (if fsys.pathExists p then fsys.getsize p else 0) := by
        rw [file_size_readE]
        cases h : fsys.pathExists p <;> simp [FileSystem.liftE, h]
      simp only [download_single_fileE, download_single_file, hx, hsize]

/-- C1: for each delegating operation, if the external library call or the
filesystem aggregation raises an exception, then exactly one `"error"`
event is emitted carrying the exception's message and class name, no
`"complete"` event is emitted, and the exception is re-raised so the
process exits with a non-zero code.  Clauses: single-file with the library
raising, single-file with the size read raising, snapshot with the library
raising, snapshot with the aggregation raising, and URL resolution with
the library raising (URL resolution touches no filesystem). -/
theorem error_event_protocol (lib : HubLib) (fsys : FileSystemE) (env : Env)
    (e : Exn) :
    (∀ (repo_id filename revision : String) (dest tok cd : Option String)
        (ap ip : Option String), repo_id ≠ "" → filename ≠ "" →
      lib.hf_hub_download (single_file_kwargs repo_id filename revision
          (resolveToken env tok) (resolveCacheDir env cd) none) = Except.error e →
      errorOutcome (runProcessE true lib fsys env
        (singleArgs repo_id filename dest tok cd revision ap ip)) e)
    ∧ (∀ (repo_id filename revision p : String) (dest tok cd : Option String)
        (ap ip : Option String), repo_id ≠ "" → filename ≠ "" →
      lib.hf_hub_download (single_file_kwargs repo_id filename revision
          (resolveToken env tok) (resolveCacheDir env cd) none) = Except.ok p →
      file_size_readE fsys p = Except.error e →
      errorOutcome (runProcessE true lib fsys env
        (singleArgs repo_id filename dest tok cd revision ap ip)) e)
    ∧ (∀ (repo_id revision : String) (fn dest tok cd : Option String)
        (ap ip : Option String), repo_id ≠ "" →
      lib.snapshot_download (snapshot_kwargs repo_id revision
          (resolveToken env tok) (resolveCacheDir env cd)
          (splitPatterns ap) (splitPatterns ip) dest) = Except.error e →
      errorOutcome (runProcessE true lib fsys env
        (snapshotArgs repo_id fn dest tok cd revision ap ip)) e)
    ∧ (∀ (repo_id revision p : String) (fn dest tok cd : Option String)
        (ap ip : Option String), repo_id ≠ "" →
      lib.snapshot_download (snapshot_kwargs repo_id revision
          (resolveToken env tok) (resolveCacheDir env cd)
          (splitPatterns ap) (splitPatterns ip) dest) = Except.ok p →
      snapshotAggregateE fsys p = Except.error e →
      errorOutcome (runProcessE true lib fsys env
        (snapshotArgs repo_id fn dest tok cd revision ap ip)) e)
    ∧ (∀ (repo_id filename revision : String) (dest tok cd : Option String)
        (ap ip : Option String), repo_id ≠ "" → filename ≠ "" →
      lib.hf_hub_url repo_id filename revision = Except.error e →
      errorOutcome (runProcessE true lib fsys env
        (urlArgs repo_id filename dest tok cd revision ap ip)) e) := by
  refine ⟨?_, ?_, ?_, ?_, ?_⟩
  · intro repo_id filename revision dest tok cd ap ip hr hf hraise
    have hmain : runProcessE true lib fsys env
        (singleArgs repo_id filename dest tok cd revision ap ip)
        = (send_progress "start"
             [("repo_id", Json.str repo_id), ("filename", Json.str filename),
              ("revision", Json.str revision)]
           ++ send_error e.message (some e.name), ProcExit.uncaught e) := by
      simp [runProcessE, mainE, singleArgs, download_single_fileE, hraise, hr, hf]
    rw [errorOutcome, hmain]
    exact ⟨rfl, rfl, rfl, rfl⟩
  · intro repo_id filename revision p dest tok cd ap ip hr hf hok hfs
    have hmain : runProcessE true lib fsys env
        (singleArgs repo_id filename dest tok cd revision ap ip)
        = (send_progress "start"
             [("repo_id", Json.str repo_id), ("filename", Json.str filename),
              ("revision", Json.str revision)]
           ++ send_error e.message (some e.name), ProcExit.uncaught e) := by
      simp [runProcessE, mainE, singleArgs, download_single_fileE, hok, hfs, hr, hf]
    rw [errorOutcome, hmain]
    exact ⟨rfl, rfl, rfl, rfl⟩
  · intro repo_id revision fn dest tok cd ap ip hr hraise
    have hmain : runProcessE true lib fsys env
        (snapshotArgs repo_id fn dest tok cd revision ap ip)
        = (send_progress "start"
             [("repo_id", Json.str repo_id), ("revision", Json.str revision),
              ("type", Json.str "snapshot")]
           ++ send_error e.message (some e.name), ProcExit.uncaught e) := by
      simp [runProcessE, mainE, snapshotArgs, download_snapshotE, hraise, hr]
    rw [errorOutcome, hmain]
    exact ⟨rfl, rfl, rfl, rfl⟩
  · intro repo_id revision p fn dest tok cd ap ip hr hok hfs
    have hmain : runProcessE true lib fsys env
        (snapshotArgs repo_id fn dest tok cd revision ap ip)
        = (send_progress "start"
             [("repo_id", Json.str repo_id), ("revision", Json.str revision),
              ("type", Json.str "snapshot")]
           ++ send_error e.message (some e.name), ProcExit.uncaught e) := by
      simp [runProcessE, mainE, snapshotArgs, download_snapshotE, hok, hfs, hr]
    rw [errorOutcome, hmain]
    exact ⟨rfl, rfl, rfl, rfl⟩
  · intro repo_id filename revision dest tok cd ap ip hr hf hraise
    have hmain : runProcessE true lib fsys env
        (urlArgs repo_id filename dest tok cd revision ap ip)
        = (send_error e.message (some e.name), ProcExit.uncaught e) := by
      simp [runProcessE, mainE, urlArgs, get_file_url, hraise, hr, hf]
    rw [errorOutcome, hmain]
    exact ⟨rfl, rfl, rfl, rfl⟩

/-- Witness for C1 exercising both triggers: the size read raising during
a single-file download, the aggregation raising during a snapshot download
(library call succeeding in both), and the library raising during URL
resolution. -/
theorem error_event_protocol_witness :
    errorOutcome (runProcessE true okLib fsysEBad env0
      (singleArgs "gpt2" "config.json" none none none "main" none none)) exn1
    ∧ errorOutcome (runProcessE true okLib fsysEBad env0
      (snapshotArgs "gpt2" none none none none "main" (some "a,b") none)) exn1
    ∧ errorOutcome (runProcessE true errLib fsysE0 env0
      (urlArgs "gpt2" "config.json" none none none "main" none none)) exn0 :=
  ⟨(error_event_protocol okLib fsysEBad env0 exn1).2.1 "gpt2" "config.json" "main"
      "/cache/file.bin" none none none none none (by decide) (by decide) rfl rfl,
   (error_event_protocol okLib fsysEBad env0 exn1).2.2.2.1 "gpt2" "main" "/snap"
      none none none none (some "a,b") none (by decide) rfl rfl,
   (error_event_protocol errLib fsysE0 env0 exn0).2.2.2.2 "gpt2" "config.json"
      "main" none none none none none (by decide) (by decide) rfl⟩

end HfDownload
